import Mathlib

/-!
Verification development for UpFS (a FUSE projection of the Up banking API,
`src/app.py`).  The definitions below are a shallow embedding of the parts of
the program the claims concern: the path regexes of `PathRegexes`, the
`MoneyPool` ledger with its `deposit` / `withdraw` operations, the
`parse_path` allocation handler, the transaction page-scanning loop of
`UpFuseOperations.getattr`, and the read-only FUSE operation stubs.  Money
amounts are Python floats in the source; they are embedded as exact rationals
(all amounts the program manipulates in the claims are small integers or
two-decimal dollar values, where Python float arithmetic is exact).
-/

namespace UpFS

/-- POSIX error numbers raised through `FuseOSError` in `src/app.py`.
`EIOERR` stands for the errno `EIO`. -/
inductive Errno where
  | ENOENT
  | EROFS
  | ENOTSUP
  | EIOERR
  deriving DecidableEq

/-- A Python-level outcome: either a `FuseOSError` carrying an errno, or an
uncaught `TypeError` (as raised by `sum` applied to a non-iterable). -/
inductive PyErr where
  | fuse (e : Errno)
  | typeErr
  deriving DecidableEq

/-! ## MoneyPool (src/app.py lines 299-355)

The pool's `_accounts` dict is embedded as an association list in insertion
order (Python dicts preserve insertion order; iteration during `withdraw`
only reassigns existing keys, which keeps the order fixed). -/

/-- `MoneyPool.total`: `sum(self._accounts.values())`. -/
def total (accounts : List (String × ℚ)) : ℚ :=
  (accounts.map Prod.snd).sum

/-- Python dict lookup `self._accounts[account]`: `none` models a `KeyError`. -/
def lookupAcc : List (String × ℚ) → String → Option ℚ
  | [], _ => none
  | (k, v) :: rest, key => if k = key then some v else lookupAcc rest key

/-- Python dict assignment `self._accounts[account] = v` for a present key. -/
def updateAcc : List (String × ℚ) → String → ℚ → List (String × ℚ)
  | [], _, _ => []
  | (k, v) :: rest, key, amt =>
    if k = key then (k, amt) :: rest else (k, v) :: updateAcc rest key amt

/-- `MoneyPool.deposit` (lines 319-328).  The emptiness test
`if not self._accounts[account]` indexes the dict first, so a missing
account raises `KeyError` (embedded as `none`); a zero balance is falsy. -/
def deposit (accounts : List (String × ℚ)) (account : String) (amount : ℚ) :
    Option (List (String × ℚ)) :=
  match lookupAcc accounts account with
  | none => none
  | some bal =>
    if bal = 0 then some (updateAcc accounts account amount)
    else some (updateAcc accounts account (bal + amount))

/-- The `for account, balance in self._accounts.items()` loop body of
`MoneyPool.withdraw` (lines 343-353), verbatim:
`if amount == 0: break`;
`self._accounts[account] = max(balance - amount, 0)`;
`withdrawn_amounts[account] = max(min(0, balance - (balance - amount)), balance)`;
`amount = amount - (balance - amount)`.
Returns the ledger entries after the loop and the `withdrawn_amounts` dict in
insertion order. -/
def withdrawGo (amount : ℚ) :
    List (String × ℚ) → List (String × ℚ) × List (String × ℚ)
  | [] => ([], [])
  | (account, balance) :: rest =>
    if amount = 0 then ((account, balance) :: rest, [])
    else
      let r := withdrawGo (amount - (balance - amount)) rest
      ((account, max (balance - amount) 0) :: r.1,
       (account, max (min 0 (balance - (balance - amount))) balance) :: r.2)

/-- `MoneyPool.withdraw` (lines 330-355): if `self.total() < amount` the empty
dict is returned with the ledger untouched, otherwise the loop above runs.
The result is `(ledger after the call, withdrawn_amounts)`. -/
def withdraw (accounts : List (String × ℚ)) (amount : ℚ) :
    List (String × ℚ) × List (String × ℚ) :=
  if total accounts < amount then (accounts, [])
  else withdrawGo amount accounts

/-! ## Path regexes (src/app.py lines 10-15)

`PathRegexes.balance` is
`^/(?:([^/]+)/(balance)|(unallocated))/(?:\$?(\d+)\.?(\d{0,2}))?$` and
`PathRegexes.transactions` is
`^/([^/]+)/(?:(transactions)/(?:(\d{4})/(?:(\d{2})/(?:(\d{2})/(?:([^/]+)/(?:(amount|category|description|message|settled|status)|(tags)/([^/]+)?)?)?)?)?)?)$`.
Both are anchored and every character class excludes `/`, so a match
decomposes along `/`-separated segments; the matchers below work on that
decomposition.  Python's `$` also matches just before a single newline at the
very end of the string, which only the final segment can contain; `chop`
models that rule.  `\d` is modeled as an ASCII digit (Python's `\d` also
accepts other Unicode decimal digits, which appear in none of the claims'
inputs). -/

/-- Split a character list at every occurrence of `sep` (like Python
`str.split`): `n` separators yield `n + 1` (possibly empty) segments. -/
def splitOnChar (sep : Char) : List Char → List (List Char)
  | [] => [[]]
  | c :: rest =>
    if c = sep then [] :: splitOnChar sep rest
    else
      match splitOnChar sep rest with
      | [] => [[c]]
      | s :: ss => (c :: s) :: ss

/-- Drop a single trailing newline: the final segment of an anchored pattern
`...$` may carry one, because Python's `$` matches just before it. -/
def chop (cs : List Char) : List Char :=
  if cs.getLast? = some '\n' then cs.dropLast else cs

/-- The fragment `\d{n}`: exactly `n` digits. -/
def digitsChk (n : ℕ) (cs : List Char) : Bool :=
  cs.length == n && cs.all Char.isDigit

/-- Numeric value of a digit string, as `float`/`int` of Python would read it. -/
def natOfDigits (cs : List Char) : ℕ :=
  cs.foldl (fun n c => 10 * n + (c.toNat - 48)) 0

/-- The fragment `\$?(\d+)\.?(\d{0,2})` matched against a whole segment,
returning groups 4 and 5 of the balance regex.  `(\d+)` is greedy, so an
undotted digit run is taken entirely as group 4 with group 5 empty. -/
def amountCore (cs : List Char) : Option (String × String) :=
  let t := match cs with
    | '$' :: r => r
    | r => r
  match splitOnChar '.' t with
  | [d] =>
    if !d.isEmpty && d.all Char.isDigit then some (String.mk d, "") else none
  | [d, c] =>
    if !d.isEmpty && d.all Char.isDigit && decide (c.length ≤ 2) &&
        c.all Char.isDigit then
      some (String.mk d, String.mk c)
    else none
  | _ => none

/-- The optional trailing amount `(?:\$?(\d+)\.?(\d{0,2}))?$` on the final
segment: `some none` when the optional group is empty, `some (some groups)`
when an amount is present, `none` when the segment fits neither. -/
def finalAmount (cs : List Char) : Option (Option (String × String)) :=
  let t := chop cs
  if t.isEmpty then some none
  else
    match amountCore t with
    | some a => some (some a)
    | none => none

/-- Result of `PathRegexes.balance`: either the `([^/]+)/(balance)` branch
(group 3 unset) or the `(unallocated)` branch (group 3 set), with the
optional amount groups. -/
inductive BalanceMatch where
  | acct (account : String) (amount : Option (String × String))
  | unalloc (amount : Option (String × String))
  deriving DecidableEq

/-- `PathRegexes.balance` on the `/`-segment decomposition of the path. -/
def balanceSegsMatch : List (List Char) → Option BalanceMatch
  | [e, acc, bal, last] =>
    if e = [] ∧ acc ≠ [] ∧ bal = "balance".data then
      match finalAmount last with
      | some amt => some (.acct (String.mk acc) amt)
      | none => none
    else none
  | [e, u, last] =>
    if e = [] ∧ u = "unallocated".data then
      match finalAmount last with
      | some amt => some (.unalloc amt)
      | none => none
    else none
  | _ => none

/-- `PathRegexes.balance.match(path)`. -/
def balanceMatch (path : String) : Option BalanceMatch :=
  balanceSegsMatch (splitOnChar '/' path.data)

/-- Captured groups of `PathRegexes.transactions` (groups 1 and 3-9). -/
structure TransMatch where
  account : String
  year : Option String
  month : Option String
  day : Option String
  payee : Option String
  detailField : Option String
  tagsDir : Bool
  tag : Option String
  deriving DecidableEq

/-- The alternation `(amount|category|description|message|settled|status)`. -/
def fieldChk (cs : List Char) : Bool :=
  cs = "amount".data || cs = "category".data || cs = "description".data ||
  cs = "message".data || cs = "settled".data || cs = "status".data

/-- `PathRegexes.transactions` on the `/`-segment decomposition.  Every
intermediate level of the nested optional groups ends in a literal `/`, so a
match at depth `k` has exactly `k` separators; the deepest segment is either
empty (the optional tail group is skipped), a detail-field literal, or a tag
(the tag's `([^/]+)?` is greedy and may swallow a trailing newline itself). -/
def transSegsMatch : List (List Char) → Option TransMatch
  | [e, acc, t, last] =>
    if e = [] ∧ acc ≠ [] ∧ t = "transactions".data ∧ chop last = [] then
      some ⟨String.mk acc, none, none, none, none, none, false, none⟩
    else none
  | [e, acc, t, y, last] =>
    if e = [] ∧ acc ≠ [] ∧ t = "transactions".data ∧ digitsChk 4 y = true ∧
        chop last = [] then
      some ⟨String.mk acc, some (String.mk y), none, none, none, none, false, none⟩
    else none
  | [e, acc, t, y, m, last] =>
    if e = [] ∧ acc ≠ [] ∧ t = "transactions".data ∧ digitsChk 4 y = true ∧
        digitsChk 2 m = true ∧ chop last = [] then
      some ⟨String.mk acc, some (String.mk y), some (String.mk m), none, none,
        none, false, none⟩
    else none
  | [e, acc, t, y, m, d, last] =>
    if e = [] ∧ acc ≠ [] ∧ t = "transactions".data ∧ digitsChk 4 y = true ∧
        digitsChk 2 m = true ∧ digitsChk 2 d = true ∧ chop last = [] then
      some ⟨String.mk acc, some (String.mk y), some (String.mk m),
        some (String.mk d), none, none, false, none⟩
    else none
  | [e, acc, t, y, m, d, payee, last] =>
    if e = [] ∧ acc ≠ [] ∧ t = "transactions".data ∧ digitsChk 4 y = true ∧
        digitsChk 2 m = true ∧ digitsChk 2 d = true ∧ payee ≠ [] then
      if chop last = [] then
        some ⟨String.mk acc, some (String.mk y), some (String.mk m),
          some (String.mk d), some (String.mk payee), none, false, none⟩
      else if fieldChk (chop last) then
        some ⟨String.mk acc, some (String.mk y), some (String.mk m),
          some (String.mk d), some (String.mk payee),
          some (String.mk (chop last)), false, none⟩
      else none
    else none
  | [e, acc, t, y, m, d, payee, tg, last] =>
    if e = [] ∧ acc ≠ [] ∧ t = "transactions".data ∧ digitsChk 4 y = true ∧
        digitsChk 2 m = true ∧ digitsChk 2 d = true ∧ payee ≠ [] ∧
        tg = "tags".data then
      if last = [] then
        some ⟨String.mk acc, some (String.mk y), some (String.mk m),
          some (String.mk d), some (String.mk payee), none, true, none⟩
      else
        some ⟨String.mk acc, some (String.mk y), some (String.mk m),
          some (String.mk d), some (String.mk payee), none, true,
          some (String.mk last)⟩
    else none
  | _ => none

/-- `PathRegexes.transactions.match(path)`. -/
def transactionsMatch (path : String) : Option TransMatch :=
  transSegsMatch (splitOnChar '/' path.data)

/-! ## parse_path (src/app.py lines 99-142)

`UpFuseOperations.parse_path` matches the path against the balance regex,
raises `FuseOSError(EROFS)` for the `unallocated` branch and for a missing or
zero amount, fetches the account (`EIO` on `UpBankException`), then compares
the amount against `self._total_unallocated()`.  That helper (lines 30-31) is
`sum(self.moneypool.total())`, and `MoneyPool.total` returns a number, so the
call raises `TypeError: 'float' object is not iterable` before any
withdrawal can happen. -/

/-- An account object returned by `self.upapi.account(...)`. -/
structure Account where
  ident : String
  balance : ℚ
  deriving DecidableEq

/-- Python `sum` applied to a number rather than an iterable raises
`TypeError`; this is exactly what `sum(self.moneypool.total())` does in
`_total_unallocated` (lines 30-31). -/
def sumOfNumber (_x : ℚ) : Except PyErr ℚ :=
  .error .typeErr

/-- `UpFuseOperations._total_unallocated`: `sum(self.moneypool.total())`. -/
def totalUnallocated (pool : List (String × ℚ)) : Except PyErr ℚ :=
  sumOfNumber (total pool)

/-- Return value of `parse_path`: `False` (path outside the hierarchy) or
`0` after the allocation branch completes. -/
inductive ParseRet where
  | noMatch
  | done
  deriving DecidableEq

/-- `float(match.group(4)) if match.group(4) else 0`: group 4 is unset when
the optional amount group is absent. -/
def dollarsVal (amt : Option (String × String)) : ℚ :=
  match amt with
  | none => 0
  | some (d, _) => (natOfDigits d.data : ℚ)

/-- `float(match.group(5)) if match.group(5) else 0`: group 5 is unset when
the amount group is absent and falsy when it matched the empty string. -/
def centsVal (amt : Option (String × String)) : ℚ :=
  match amt with
  | none => 0
  | some (_, c) => if c = "" then 0 else (natOfDigits c.data : ℚ)

/-- `UpFuseOperations.parse_path`, with the Up API embedded as the oracle
`fetch` (`none` models an `UpBankException`).  The result pairs the return
value with the pool ledger after the call. -/
def parse_path (fetch : String → Option Account) (pool : List (String × ℚ))
    (path : String) : Except PyErr (ParseRet × List (String × ℚ)) :=
  match balanceMatch path with
  | none => .ok (.noMatch, pool)
  | some (.unalloc _) => .error (.fuse .EROFS)
  | some (.acct accountStr amt) =>
    let dollars := dollarsVal amt
    let cents := centsVal amt
    if dollars = 0 ∧ cents = 0 then .error (.fuse .EROFS)
    else
      let amount := dollars + cents / 100
      match fetch accountStr with
      | none => .error (.fuse .EIOERR)
      | some _account =>
        match totalUnallocated pool with
        | .error e => .error e
        | .ok t =>
          if amount > t then .error (.fuse .ENOTSUP)
          else .ok (.done, (withdraw pool amount).1)

/-! ## The transaction page scan in getattr (src/app.py lines 200-225)

After the transactions regex matches, `getattr` sets `transaction_str = None`
(line 204, a TODO), fetches the first page with `account.transactions()`, and
runs:
```
transaction = None
while page and not transaction:
    for _transaction in page:
        if _transaction.id == transaction_str:
            transaction = _transaction
            break
    try:
        page = page.next()
    except UpBankException:
        raise FuseOSError(EIO)
```
The loop is embedded below with the remote pagination as an explicit list of
`page.next()` outcomes: `Except.ok (some p)` is a successfully fetched page,
`Except.ok none` is pagination running out (a falsy page), `Except.error`
is an `UpBankException`; an exhausted outcome list also yields a falsy page. -/

/-- The exception type raised by the `upbankapi` client. -/
inductive UpError where
  | upBankException
  deriving DecidableEq

/-- A transaction as used by the scan: only its `id` is consulted. -/
structure Transaction where
  ident : String
  deriving DecidableEq

/-- The hard-coded `transaction_str = None` of line 204. -/
def transaction_str : Option String :=
  none

/-- The `for _transaction in page` loop: first transaction whose `id` equals
`transaction_str` (comparison with `None` is always false in Python). -/
def firstMatch (target : Option String) : List Transaction → Option Transaction
  | [] => none
  | t :: rest => if some t.ident = target then some t else firstMatch target rest

/-- Observable outcome of the while-loop: the transaction found, a completed
scan with nothing found, or `FuseOSError(EIO)` raised from a failed
`page.next()`.  The `ℕ` counts the `page.next()` calls performed, i.e. how
many pages beyond the first the loop asked the remote API for. -/
inductive ScanResult where
  | found (t : Transaction) (nextCalls : ℕ)
  | notFound (nextCalls : ℕ)
  | transport (nextCalls : ℕ)
  deriving DecidableEq

/-- The while-loop itself.  Note the source calls `page.next()` at the end of
every iteration, after the `for` loop, and only then re-checks
`while page and not transaction`; so an iteration that finds the transaction
still performs one more `page.next()` before the loop stops. -/
def scanFrom (target : Option String) (found : Option Transaction)
    (page : Option (List Transaction))
    (rest : List (Except UpError (Option (List Transaction)))) (count : ℕ) :
    ScanResult :=
  match page, found, rest with
  | none, none, _ => .notFound count
  | none, some t, _ => .found t count
  | some _, some t, _ => .found t count
  | some p, none, [] =>
    match firstMatch target p with
    | some t => .found t (count + 1)
    | none => .notFound (count + 1)
  | some p, none, .ok pg :: rs => scanFrom target (firstMatch target p) pg rs (count + 1)
  | some _, none, .error _ :: _ => .transport count

/-! ## Read-only FUSE operations (src/app.py lines 33-97)

Each of these methods unconditionally raises `FuseOSError` with the errno
shown; none of them inspects its arguments. -/

/-- `chmod` (lines 33-35). -/
def chmod (_path : String) (_mode : ℕ) : Except Errno Unit :=
  .error .EROFS

/-- `chown` (lines 37-39). -/
def chown (_path : String) (_uid _gid : ℕ) : Except Errno Unit :=
  .error .EROFS

/-- `link` (lines 41-43). -/
def link (_target _source : String) : Except Errno Unit :=
  .error .EROFS

/-- `mkdir` (lines 45-47). -/
def mkdir (_path : String) (_mode : ℕ) : Except Errno Unit :=
  .error .EROFS

/-- `mknod` (lines 49-51). -/
def mknod (_path : String) (_mode _dev : ℕ) : Except Errno Unit :=
  .error .EROFS

/-- `removexattr` (lines 57-59): `ENOTSUP`, not `EROFS`. -/
def removexattr (_path _name : String) : Except Errno Unit :=
  .error .ENOTSUP

/-- `rename` (lines 61-63). -/
def rename (_old _new : String) : Except Errno Unit :=
  .error .EROFS

/-- `rmdir` (lines 65-67). -/
def rmdir (_path : String) : Except Errno Unit :=
  .error .EROFS

/-- `setxattr` (lines 69-71): `ENOTSUP`, not `EROFS`. -/
def setxattr (_path _name _value : String) (_options _position : ℕ) :
    Except Errno Unit :=
  .error .ENOTSUP

/-- `symlink` (lines 73-75). -/
def symlink (_target _source : String) : Except Errno Unit :=
  .error .EROFS

/-- `truncate` (lines 77-79). -/
def truncate (_path : String) (_length : ℕ) (_fh : Option ℕ) : Except Errno Unit :=
  .error .EROFS

/-- `unlink` (lines 81-83). -/
def unlink (_path : String) : Except Errno Unit :=
  .error .EROFS

/-- `write` (lines 85-87). -/
def write (_path _data : String) (_offset _fh : ℕ) : Except Errno Unit :=
  .error .EROFS

/-- `create` (lines 89-97) also raises `EROFS` unconditionally; the
allocation logic lives in `parse_path`, which nothing calls. -/
def create (_path : String) (_mode : ℕ) : Except Errno Unit :=
  .error .EROFS

/-! ## Helper lemmas -/

/-- Splitting a list that starts with a separator-free segment followed by a
separator peels off that segment. -/
theorem splitOnChar_seg (sep : Char) (xs ys : List Char) (h : ∀ c ∈ xs, c ≠ sep) :
    splitOnChar sep (xs ++ sep :: ys) = xs :: splitOnChar sep ys := by
  induction xs with
  | nil => simp [splitOnChar]
  | cons c cs ih =>
    have hc : c ≠ sep := h c (by simp)
    have ih' := ih (fun d hd => h d (by simp [hd]))
    simp [splitOnChar, hc, ih']

/-- Segment decomposition of `/main/transactions/2021/{mm}/` for any
slash-free month segment `mm`. -/
theorem segsOf_month (mm : String) (h : ∀ c ∈ mm.data, c ≠ '/') :
    splitOnChar '/' ("/main/transactions/2021/" ++ mm ++ "/").data
      = [[], "main".data, "transactions".data, "2021".data, mm.data, []] := by
  have hd : ("/main/transactions/2021/" ++ mm ++ "/").data
      = '/' :: ("main".data ++ '/' :: ("transactions".data ++ '/' ::
          ("2021".data ++ '/' :: (mm.data ++ '/' :: [])))) := rfl
  rw [hd]
  rw [show splitOnChar '/' ('/' :: ("main".data ++ '/' :: ("transactions".data ++ '/' ::
      ("2021".data ++ '/' :: (mm.data ++ '/' :: []))))) = [] :: splitOnChar '/'
      ("main".data ++ '/' :: ("transactions".data ++ '/' ::
      ("2021".data ++ '/' :: (mm.data ++ '/' :: [])))) from by simp [splitOnChar]]
  rw [splitOnChar_seg _ _ _ (by decide), splitOnChar_seg _ _ _ (by decide),
    splitOnChar_seg _ _ _ (by decide), splitOnChar_seg _ _ _ h]
  rfl

/-! ## Claims -/

/-- C1: the spec claims `withdraw(700)` over the ledger `{A: 500, B: 300}`
returns `[(A,500),(B,200)]` and leaves `{A: 0, B: 100}`.  Evaluating the
source's arithmetic at that input instead empties both accounts and reports
`[(A,500),(B,300)]` as withdrawn: the loop conflates the remaining request
with the account balance, so this claim fails on the code. -/
theorem withdraw_700_code_trace :
    withdraw [("A", 500), ("B", 300)] 700
      = ([("A", 0), ("B", 0)], [("A", 500), ("B", 300)]) := by
  norm_num [withdraw, withdrawGo, total]

/-- C2: the spec's invariant says the debited amounts sum exactly to the
requested amount or the withdrawal is rejected entirely.  At the ledger
`{A: 500, B: 300}` with request 700 the code neither rejects (the result is
nonempty) nor debits 700: the debits sum to 800. -/
theorem withdraw_700_overdebit :
    ((withdraw [("A", 500), ("B", 300)] 700).2.map Prod.snd).sum = 800 ∧
    (withdraw [("A", 500), ("B", 300)] 700).2 ≠ [] ∧ (800 : ℚ) ≠ 700 := by
  have h : withdraw [("A", 500), ("B", 300)] 700
      = ([("A", 0), ("B", 0)], [("A", 500), ("B", 300)]) := by
    norm_num [withdraw, withdrawGo, total]
  rw [h]
  refine ⟨by norm_num, by simp, by norm_num⟩

/-- C3 counterexample: the claim says a path whose month segment is out of
range, month 13 in particular, fails to resolve.  But the transactions regex
checks only that the month is two digits: `/main/transactions/2021/13/`
matches, with month group `13`. -/
theorem trans_month13_not_invalid :
    transactionsMatch "/main/transactions/2021/13/"
        = some ⟨"main", some "2021", some "13", none, none, none, false, none⟩ ∧
    transactionsMatch "/main/transactions/2021/13/" ≠ none :=
  ⟨rfl, by decide⟩

/-- C3 (amended): the transactions regex validates shape, not ranges.  The
claim's own example `/main/transactions/2021/13` fails to match only because
every intermediate segment must end in `/`; with that slash, any two-digit
month segment whatsoever — 13 included — matches, so there is no month-range
or leap-year validation. -/
theorem trans_month_shape_only :
    transactionsMatch "/main/transactions/2021/13" = none ∧
    ∀ mm : String, digitsChk 2 mm.data = true →
      transactionsMatch ("/main/transactions/2021/" ++ mm ++ "/")
        = some ⟨"main", some "2021", some mm, none, none, none, false, none⟩ := by
  constructor
  · rfl
  · intro mm h
    have hall : ∀ c ∈ mm.data, c.isDigit = true := by
      have h2 := (Bool.and_eq_true _ _).mp h
      exact fun c hc => List.all_eq_true.mp h2.2 c hc
    have hs : ∀ c ∈ mm.data, c ≠ '/' := by
      intro c hc he
      have hd := hall c hc
      rw [he] at hd
      exact absurd hd (by decide)
    rw [transactionsMatch, segsOf_month mm hs]
    rw [show transSegsMatch [[], "main".data, "transactions".data, "2021".data, mm.data, []]
        = if [] = ([] : List Char) ∧ "main".data ≠ [] ∧
            "transactions".data = "transactions".data ∧
            digitsChk 4 "2021".data = true ∧ digitsChk 2 mm.data = true ∧
            chop [] = [] then
          some ⟨String.mk "main".data, some (String.mk "2021".data),
            some (String.mk mm.data), none, none, none, false, none⟩
        else none from rfl]
    rw [if_pos ⟨rfl, by decide, rfl, by decide, h, rfl⟩]

/-- C3 witness: month 99 matches once the trailing slash is present. -/
theorem trans_month_shape_only_w :
    transactionsMatch "/main/transactions/2021/99/"
      = some ⟨"main", some "2021", some "99", none, none, none, false, none⟩ :=
  trans_month_shape_only.2 "99" (by decide)

/-- C4: the claim says a point lookup matching on page 2 of a three-page
history stops without fetching page 3.  Running the scan loop on exactly that
history shows it performs two `page.next()` calls: the loop only re-checks
its condition after the end-of-iteration `page.next()`, so the page after
the matching one is fetched before the loop stops. -/
theorem scan_fetches_page_after_match :
    scanFrom (some "abc123") none (some [⟨"t1"⟩])
        [Except.ok (some [⟨"abc123"⟩]), Except.ok (some [⟨"t3"⟩])] 0
      = ScanResult.found ⟨"abc123"⟩ 2 :=
  rfl

/-- C5 counterexample: the claim says path resolution never fails and leaves
the POSIX error choice to the response builder; but `parse_path` itself
raises `FuseOSError(EROFS)` on the grammar-valid path `/unallocated/`. -/
theorem parse_path_unallocated_raises :
    parse_path (fun _ => none) [] "/unallocated/" = .error (.fuse .EROFS) :=
  rfl

/-- C5 (amended): `parse_path` never fails only outside the balance grammar —
every path the balance regex rejects returns `False` with the pool untouched;
paths inside the grammar may raise `FuseOSError` directly from `parse_path`
rather than resolving to an `Invalid` variant. -/
theorem parse_path_nomatch_ok (fetch : String → Option Account)
    (pool : List (String × ℚ)) (path : String) (h : balanceMatch path = none) :
    parse_path fetch pool path = .ok (.noMatch, pool) := by
  simp [parse_path, h]

/-- C5 witness: a path outside the balance grammar returns `False`. -/
theorem parse_path_nomatch_ok_w :
    parse_path (fun _ => none) [] "/x" = .ok (.noMatch, []) :=
  parse_path_nomatch_ok _ _ _ rfl

/-- C6: whenever the requested amount strictly exceeds the pool total,
`withdraw` returns the empty result and the ledger is exactly as before —
the guard `if self.total() < amount` runs before any account is touched. -/
theorem withdraw_insufficient_rejected (pool : List (String × ℚ)) (amount : ℚ)
    (h : total pool < amount) : withdraw pool amount = (pool, []) := by
  simp [withdraw, h]

/-- C6 witness: `withdraw(900)` over `{A: 500, B: 300}` is rejected with the
ledger unchanged. -/
theorem withdraw_insufficient_rejected_w :
    withdraw [("A", 500), ("B", 300)] 900 = ([("A", 500), ("B", 300)], []) :=
  withdraw_insufficient_rejected _ _ (by norm_num [total])

/-- C7: if the remote collaborator fails while fetching a page (every earlier
`page.next()` produced a real page, and the failing fetch is reached), the
scan never reports not-found: the `except UpBankException` handler raises
`FuseOSError(EIO)` instead, so a not-found outcome can only arise from clean
page exhaustion. -/
theorem scan_error_never_notfound (target : Option String) (p0 : List Transaction)
    (pages : List (List Transaction))
    (tail : List (Except UpError (Option (List Transaction)))) (c n : ℕ) :
    scanFrom target none (some p0)
        (pages.map (fun p => Except.ok (some p)) ++
          Except.error UpError.upBankException :: tail) c
      ≠ ScanResult.notFound n := by
  induction pages generalizing p0 c with
  | nil => simp [scanFrom]
  | cons q qs ih =>
    cases hm : firstMatch target p0 with
    | none => simpa [scanFrom, hm] using ih q (c + 1)
    | some t => simp [scanFrom, hm]

/-- C8 counterexample: the claim puts `setxattr` among the calls that yield
the read-only-filesystem classification, but the code raises `ENOTSUP`
(not-supported), which is not `EROFS`. -/
theorem setxattr_not_erofs :
    setxattr "/a" "user.k" "v" 0 0 = .error .ENOTSUP ∧
    Errno.ENOTSUP ≠ Errno.EROFS :=
  ⟨rfl, by decide⟩

/-- C8 (amended): every mutating call other than create is rejected
unconditionally, for every argument — with `EROFS` for the eleven
file-mutation calls, while the two extended-attribute calls `setxattr` and
`removexattr` are rejected with `ENOTSUP` instead. -/
theorem mutating_ops_classification :
    (∀ p m, chmod p m = .error .EROFS) ∧
    (∀ p u g, chown p u g = .error .EROFS) ∧
    (∀ t s, link t s = .error .EROFS) ∧
    (∀ p m, mkdir p m = .error .EROFS) ∧
    (∀ p m d, mknod p m d = .error .EROFS) ∧
    (∀ o n, rename o n = .error .EROFS) ∧
    (∀ p, rmdir p = .error .EROFS) ∧
    (∀ t s, symlink t s = .error .EROFS) ∧
    (∀ p l fh, truncate p l fh = .error .EROFS) ∧
    (∀ p, unlink p = .error .EROFS) ∧
    (∀ p d o fh, write p d o fh = .error .EROFS) ∧
    (∀ p n v o pos, setxattr p n v o pos = .error .ENOTSUP) ∧
    (∀ p n, removexattr p n = .error .ENOTSUP) :=
  ⟨fun _ _ => rfl, fun _ _ _ => rfl, fun _ _ => rfl, fun _ _ => rfl,
   fun _ _ _ => rfl, fun _ _ => rfl, fun _ => rfl, fun _ _ => rfl,
   fun _ _ _ => rfl, fun _ => rfl, fun _ _ _ _ => rfl,
   fun _ _ _ _ _ => rfl, fun _ _ => rfl⟩

/-- C9: `deposit` tests `if not self._accounts[account]`, indexing the dict
before any assignment, so an account absent from the ledger raises `KeyError`
rather than being created; a deposit can only succeed for a tracked account. -/
theorem deposit_missing_account_keyerror (accounts : List (String × ℚ))
    (account : String) (amount : ℚ) (h : lookupAcc accounts account = none) :
    deposit accounts account amount = none := by
  simp [deposit, h]

/-- C9 witness: depositing to the untracked account `A` raises `KeyError`. -/
theorem deposit_missing_account_keyerror_w :
    deposit [("B", 300)] "A" 5 = none :=
  deposit_missing_account_keyerror _ _ _ rfl

/-- C10: for every balance-grammar path in the account branch carrying a
nonzero amount, with the account fetch succeeding, `parse_path` raises
`TypeError` when the sufficiency check evaluates
`sum(self.moneypool.total())` — `total()` returns a number, which `sum`
cannot iterate — so the allocation pathway never reaches `withdraw`. -/
theorem parse_path_allocation_type_error (fetch : String → Option Account)
    (pool : List (String × ℚ)) (path : String) (acc : String)
    (amt : Option (String × String)) (a : Account)
    (hm : balanceMatch path = some (.acct acc amt))
    (hnz : ¬(dollarsVal amt = 0 ∧ centsVal amt = 0))
    (hf : fetch acc = some a) :
    parse_path fetch pool path = .error .typeErr := by
  simp [parse_path, hm, hnz, hf, totalUnallocated, sumOfNumber]

/-- C10 witness: creating `/sav/balance/$5` with a fetchable account raises
`TypeError` before any withdrawal. -/
theorem parse_path_allocation_type_error_w :
    parse_path (fun _ => some ⟨"sav", 0⟩) [] "/sav/balance/$5" = .error .typeErr :=
  parse_path_allocation_type_error _ _ _ "sav" (some ("5", "")) ⟨"sav", 0⟩ rfl
    (by norm_num [dollarsVal, centsVal, natOfDigits,
      show Char.toNat '5' = 53 from rfl]) rfl

end UpFS
